import Mathlib

/-
  Verification development for a round-robin reverse proxy in front of
  JSON-RPC nodes (source files: node.go, main.go, logger.go).

  The embedding models the response-inspection hook (ModifyResponse),
  the decompression helper (tryDecompressResponse), the round-robin
  selection (nextNode), the periodic metrics task (runPrintNodeMetrics)
  and the health-probe handler (the healthz branch of main).

  External library behaviour (the gzip/flate decoders and the JSON
  parser act on opaque byte streams) is modelled by explicit outcome
  oracles passed to the functions that consult them; the control flow
  around those outcomes is translated directly from the Go source.
-/

namespace NodeReverseProxy

/-- Byte sequences (response bodies) are modelled as lists of naturals. -/
abbrev Bytes := List Nat

/-- JSON documents as produced by a successful parse of a body:
the tree the inspection step searches for a field named error. -/
inductive Json where
  | null : Json
  | bool (b : Bool) : Json
  | num (repr : String) : Json
  | str (s : String) : Json
  | arr (items : List Json) : Json
  | obj (fields : List (String × Json)) : Json

/-- Search of the parsed document for a field named error at any
nesting depth, mirroring jsonquery.FindOne with query //error: a match
is an object key literally named error, anywhere in the tree. -/
def hasErrorField : Json → Bool
  | Json.null => false
  | Json.bool _ => false
  | Json.num _ => false
  | Json.str _ => false
  | Json.arr [] => false
  | Json.arr (x :: xs) => hasErrorField x || hasErrorField (Json.arr xs)
  | Json.obj [] => false
  | Json.obj ((k, v) :: fs) =>
      k == "error" || hasErrorField v || hasErrorField (Json.obj fs)

/-- Outcome of gzip decoding a byte stream, as the Go library reports it:
newReaderErr when gzip.NewReader fails (malformed header), readErr when
the reader is constructed but io.ReadAll fails on it (corrupt data after
a valid header), decoded when the full decode succeeds. -/
inductive GzipOutcome where
  | newReaderErr : GzipOutcome
  | readErr : GzipOutcome
  | decoded (ub : Bytes) : GzipOutcome

/-- Outcome of deflate decoding a byte stream: flate.NewReader never
fails at construction, so the only failure is io.ReadAll failing. -/
inductive FlateOutcome where
  | readErr : FlateOutcome
  | decoded (ub : Bytes) : FlateOutcome

/-- Translation of tryDecompressResponse (node.go): dispatch on the
Content-Encoding header; for gzip a NewReader failure returns the raw
bytes with a nil error, while a read failure is an error; for deflate a
read failure is an error; any other encoding returns the raw bytes. -/
def tryDecompressResponse (contentEncoding : String) (gz : GzipOutcome)
    (fl : FlateOutcome) (b : Bytes) : Except Unit Bytes :=
  if contentEncoding = "gzip" then
    match gz with
    | GzipOutcome.newReaderErr => Except.ok b
    | GzipOutcome.readErr => Except.error ()
    | GzipOutcome.decoded ub => Except.ok ub
  else if contentEncoding = "deflate" then
    match fl with
    | FlateOutcome.readErr => Except.error ()
    | FlateOutcome.decoded ub => Except.ok ub
  else
    Except.ok b

/-- Counters of a ReverseProxyNode (node.go): total calls and the
per-class call counts. -/
structure NodeCounters where
  calls : Nat
  calls2XX : Nat
  calls4XX : Nat
  calls5XX : Nat
deriving Repr, DecidableEq

/-- The all-zero counters a node starts with. -/
def NodeCounters.zero : NodeCounters := ⟨0, 0, 0, 0⟩

/-- The deferred classification block of ModifyResponse: bump the class
counter whose range contains the (possibly overridden) status code, or
none of them when the status lies outside all three ranges. -/
def classifyStatus (c : NodeCounters) (statusCode : Nat) : NodeCounters :=
  if 200 ≤ statusCode ∧ statusCode < 300 then
    { c with calls2XX := c.calls2XX + 1 }
  else if 400 ≤ statusCode ∧ statusCode < 500 then
    { c with calls4XX := c.calls4XX + 1 }
  else if 500 ≤ statusCode ∧ statusCode < 600 then
    { c with calls5XX := c.calls5XX + 1 }
  else
    c

/-- Log lines ModifyResponse can emit: the WARN line when an error
field is detected, and the WARN line when JSON parsing fails. -/
inductive LogEvent where
  | warnDetectError : LogEvent
  | warnParseError : LogEvent
deriving Repr, DecidableEq

/-- The upstream response as ModifyResponse receives it: the transport
status code, the Content-Encoding header value, and the outcome of
buffering the body with io.ReadAll (ok with the raw bytes, or a read
error). -/
structure HttpResponse where
  statusCode : Nat
  contentEncoding : String
  bodyRead : Except Unit Bytes

/-- Oracles for the external decoders and the JSON parser: given the
raw bytes, how gzip and deflate decoding behave on them, and what
jsonquery.Parse yields on a byte sequence (none on parse failure). -/
structure Oracles where
  gzip : Bytes → GzipOutcome
  flate : Bytes → FlateOutcome
  parse : Bytes → Option Json

/-- Everything observable about one run of ModifyResponse: the updated
counters, whether a non-nil error was returned to the proxy, the status
code the response object carries afterwards (what the client receives),
the body placed back on the response (none when the restore step was
skipped), the Content-Length header value set, and the log lines. -/
structure ModifyResult where
  counters : NodeCounters
  returnedError : Bool
  deliveredStatus : Nat
  deliveredBody : Option Bytes
  contentLength : Option Nat
  logs : List LogEvent
deriving Repr, DecidableEq

/-- Translation of ModifyResponse (node.go). The local variable
statusCode starts as the transport status and is set to 429 when an
error field is found; the deferred block classifies with that local
value. The response object status r.StatusCode is never assigned, so
the delivered status is always the original one. On a body read error
the function returns the error before restoring the body, but the
deferred classification still runs with the original status. -/
def modifyResponse (o : Oracles) (c : NodeCounters) (r : HttpResponse) :
    ModifyResult :=
  let c1 := { c with calls := c.calls + 1 }
  match r.bodyRead with
  | Except.error _ =>
      { counters := classifyStatus c1 r.statusCode
        returnedError := true
        deliveredStatus := r.statusCode
        deliveredBody := none
        contentLength := none
        logs := [] }
  | Except.ok b =>
      match tryDecompressResponse r.contentEncoding (o.gzip b) (o.flate b) b with
      | Except.error _ =>
          { counters := classifyStatus c1 r.statusCode
            returnedError := false
            deliveredStatus := r.statusCode
            deliveredBody := some b
            contentLength := some b.length
            logs := [] }
      | Except.ok ub =>
          match o.parse ub with
          | none =>
              { counters := classifyStatus c1 r.statusCode
                returnedError := false
                deliveredStatus := r.statusCode
                deliveredBody := some b
                contentLength := some b.length
                logs := [LogEvent.warnParseError] }
          | some doc =>
              if hasErrorField doc then
                { counters := classifyStatus c1 429
                  returnedError := false
                  deliveredStatus := r.statusCode
                  deliveredBody := some b
                  contentLength := some b.length
                  logs := [LogEvent.warnDetectError] }
              else
                { counters := classifyStatus c1 r.statusCode
                  returnedError := false
                  deliveredStatus := r.statusCode
                  deliveredBody := some b
                  contentLength := some b.length
                  logs := [] }

/-- Derived view of the inspection outcome: true exactly when
decompression succeeds, the decoded bytes parse, and the document holds
an error field, which is when the local statusCode is set to 429. -/
def inspectionFindsError (o : Oracles) (r : HttpResponse) (b : Bytes) : Bool :=
  match tryDecompressResponse r.contentEncoding (o.gzip b) (o.flate b) b with
  | Except.error _ => false
  | Except.ok ub =>
      match o.parse ub with
      | none => false
      | some doc => hasErrorField doc

/-- The status the deferred block classifies with: 429 after an
override, the transport status otherwise. -/
def finalInspectionStatus (o : Oracles) (r : HttpResponse) (b : Bytes) : Nat :=
  if inspectionFindsError o r b then 429 else r.statusCode

/-- Derived view of the log lines one run of ModifyResponse emits on
the path where the body was buffered successfully. -/
def modifyLogs (o : Oracles) (r : HttpResponse) (b : Bytes) : List LogEvent :=
  match tryDecompressResponse r.contentEncoding (o.gzip b) (o.flate b) b with
  | Except.error _ => []
  | Except.ok ub =>
      match o.parse ub with
      | none => [LogEvent.warnParseError]
      | some doc =>
          if hasErrorField doc then [LogEvent.warnDetectError] else []

/-- Counter states reachable over the lifetime of one node: counters
start at zero and each completed response passes through
modifyResponse, with arbitrary decoder and parser behaviour. -/
inductive ReachableCounters : NodeCounters → Prop where
  | init : ReachableCounters NodeCounters.zero
  | step (o : Oracles) (r : HttpResponse) {c : NodeCounters} :
      ReachableCounters c → ReachableCounters (modifyResponse o c r).counters

/-- Modulus of the 64-bit unsigned cursor used by the round-robin. -/
def UINT64_MOD : Nat := 2 ^ 64

/-- Translation of nextNode (main.go): nodesIndex.Add(1) returns the
incremented cursor (wrapping at 64 bits), and the selected index is
that value modulo the number of nodes. Returns the pair of the new
cursor value and the selected index. -/
def nextNodeIndex (numNodes : Nat) (cursor : Nat) : Nat × Nat :=
  let next := (cursor + 1) % UINT64_MOD
  (next, next % numNodes)

/-- Indices produced by k successive selection calls from a quiescent
registry whose cursor holds the given value. -/
def selectIndices (numNodes cursor : Nat) : Nat → List Nat
  | 0 => []
  | Nat.succ k =>
      let p := nextNodeIndex numNodes cursor
      p.2 :: selectIndices numNodes p.1 k

/-- Translation of runPrintNodeMetrics (main.go) as the sequence of
per-node metrics log lines it emits: a zero interval returns before the
ticker is created, otherwise each tick before cancellation emits one
line per node (here represented by that node's counter snapshot). -/
def runPrintNodeMetrics (interval : Nat) (ticksBeforeCancel : Nat)
    (nodes : List NodeCounters) : List NodeCounters :=
  if interval = 0 then []
  else (List.range ticksBeforeCancel).flatMap (fun _ => nodes)

/-- Interaction of the health-probe with its upstream: the transport
call fails, reading the response body fails, or a body is read, paired
with the outcome of decoding it as a JSON object (the top-level
key/value map, none on decode failure). -/
inductive HealthUpstream where
  | transportErr : HealthUpstream
  | readErr : HealthUpstream
  | body (raw : Bytes) (decoded : Option (List (String × Json))) : HealthUpstream

/-- Observable outcome of one healthz request in health-probe mode: the
status code written, the body echoed to the caller (only the 502 branch
writes one), and whether the INFO-level result line was logged. -/
structure HealthzResult where
  status : Nat
  echoedBody : Option Bytes
  infoLogged : Bool
deriving Repr, DecidableEq

/-- Translation of the healthz handler branch of main (main.go) in
health-probe mode: 503 on transport failure, 500 on body read failure
or JSON decode failure, then dispatch on the result field: boolean true
gives 500, boolean false gives 200, and anything else (including a
missing or null result) gives 502 with the raw body echoed and an INFO
log line. -/
def healthzHandler (u : HealthUpstream) : HealthzResult :=
  match u with
  | HealthUpstream.transportErr =>
      { status := 503, echoedBody := none, infoLogged := false }
  | HealthUpstream.readErr =>
      { status := 500, echoedBody := none, infoLogged := false }
  | HealthUpstream.body _ none =>
      { status := 500, echoedBody := none, infoLogged := false }
  | HealthUpstream.body raw (some fields) =>
      match fields.lookup "result" with
      | some (Json.bool true) =>
          { status := 500, echoedBody := none, infoLogged := false }
      | some (Json.bool false) =>
          { status := 200, echoedBody := none, infoLogged := false }
      | _ =>
          { status := 502, echoedBody := some raw, infoLogged := true }

/-- Sample JSON-RPC failure payload: an object holding a field named
error (the shape a throttled upstream returns with transport status
200). -/
def sampleErrorDoc : Json :=
  Json.obj [("jsonrpc", Json.str "2.0"),
            ("error", Json.obj [("code", Json.num "-32005")])]

/-- Sample successful JSON-RPC payload with no error field anywhere. -/
def sampleOkDoc : Json :=
  Json.obj [("jsonrpc", Json.str "2.0"), ("result", Json.str "0x10")]

/-- Oracles for an identity-encoded response: decoders are not
consulted and the parser returns the given document. -/
def plainOracles (doc : Option Json) : Oracles :=
  { gzip := fun _ => GzipOutcome.decoded []
    flate := fun _ => FlateOutcome.decoded []
    parse := fun _ => doc }

/-- Oracles whose deflate decoder fails with a read error. -/
def deflateFailOracles : Oracles :=
  { gzip := fun _ => GzipOutcome.decoded []
    flate := fun _ => FlateOutcome.readErr
    parse := fun _ => none }

/-- Oracles whose gzip decoder is constructed (valid header) but fails
while being read (corrupt data); the parser would find an error field
if it were ever consulted. -/
def gzipDataFailOracles : Oracles :=
  { gzip := fun _ => GzipOutcome.readErr
    flate := fun _ => FlateOutcome.decoded []
    parse := fun _ => some sampleErrorDoc }

/-- Response with no Content-Encoding whose body buffered fine. -/
def plainResp (status : Nat) (b : Bytes) : HttpResponse :=
  { statusCode := status, contentEncoding := "", bodyRead := Except.ok b }

/-- Deflate-encoded 200 response whose body buffered fine. -/
def deflateResp (b : Bytes) : HttpResponse :=
  { statusCode := 200, contentEncoding := "deflate", bodyRead := Except.ok b }

/-- Gzip-encoded 200 response whose body buffered fine. -/
def gzipResp (b : Bytes) : HttpResponse :=
  { statusCode := 200, contentEncoding := "gzip", bodyRead := Except.ok b }

/-- Response whose body stream failed mid-read while buffering. -/
def readErrResp : HttpResponse :=
  { statusCode := 200, contentEncoding := "", bodyRead := Except.error () }

/-- Helper: the deferred classification never touches the total. -/
theorem classifyStatus_calls (c : NodeCounters) (s : Nat) :
    (classifyStatus c s).calls = c.calls := by
  unfold classifyStatus
  split_ifs <;> rfl

/-- Helper: one classification bumps the class counters by at most one
in total. -/
theorem classifyStatus_sum_le (c : NodeCounters) (s : Nat) :
    (classifyStatus c s).calls2XX + (classifyStatus c s).calls4XX +
      (classifyStatus c s).calls5XX ≤
    c.calls2XX + c.calls4XX + c.calls5XX + 1 := by
  unfold classifyStatus
  split_ifs <;> simp <;> omega

/-- Helper: classification never decreases any class counter. -/
theorem classifyStatus_mono (c : NodeCounters) (s : Nat) :
    c.calls2XX ≤ (classifyStatus c s).calls2XX ∧
    c.calls4XX ≤ (classifyStatus c s).calls4XX ∧
    c.calls5XX ≤ (classifyStatus c s).calls5XX := by
  unfold classifyStatus
  split_ifs <;> simp

/-- Helper: a status in the 2xx range bumps exactly the 2xx counter. -/
theorem classifyStatus_of_2xx (c : NodeCounters) (s : Nat)
    (h : 200 ≤ s ∧ s < 300) :
    classifyStatus c s = { c with calls2XX := c.calls2XX + 1 } := by
  unfold classifyStatus
  split_ifs <;> first | rfl | omega

/-- Helper: a status in the 4xx range bumps exactly the 4xx counter. -/
theorem classifyStatus_of_4xx (c : NodeCounters) (s : Nat)
    (h : 400 ≤ s ∧ s < 500) :
    classifyStatus c s = { c with calls4XX := c.calls4XX + 1 } := by
  unfold classifyStatus
  split_ifs <;> first | rfl | omega

/-- Helper: a status in the 5xx range bumps exactly the 5xx counter. -/
theorem classifyStatus_of_5xx (c : NodeCounters) (s : Nat)
    (h : 500 ≤ s ∧ s < 600) :
    classifyStatus c s = { c with calls5XX := c.calls5XX + 1 } := by
  unfold classifyStatus
  split_ifs <;> first | rfl | omega

/-- Helper: a status outside all three ranges bumps no class counter. -/
theorem classifyStatus_of_none (c : NodeCounters) (s : Nat)
    (h2 : ¬ (200 ≤ s ∧ s < 300)) (h4 : ¬ (400 ≤ s ∧ s < 500))
    (h5 : ¬ (500 ≤ s ∧ s < 600)) :
    classifyStatus c s = c := by
  unfold classifyStatus
  split_ifs <;> first | rfl | omega

/-- Helper: full description of ModifyResponse on the path where the
body was buffered successfully: the counters classify the inspection
status (429 after an override, the transport status otherwise), no
error is returned, the delivered status is the transport status, and
the raw bytes are restored with a matching Content-Length. -/
theorem modifyResponse_ok (o : Oracles) (c : NodeCounters)
    (r : HttpResponse) (b : Bytes) (h : r.bodyRead = Except.ok b) :
    modifyResponse o c r =
      { counters := classifyStatus { c with calls := c.calls + 1 }
          (finalInspectionStatus o r b)
        returnedError := false
        deliveredStatus := r.statusCode
        deliveredBody := some b
        contentLength := some b.length
        logs := modifyLogs o r b } := by
  simp only [modifyResponse, h]
  unfold finalInspectionStatus inspectionFindsError modifyLogs
  cases hdec : tryDecompressResponse r.contentEncoding (o.gzip b) (o.flate b) b with
  | error e => simp
  | ok ub =>
    cases hp : o.parse ub with
    | none => simp [hp]
    | some doc =>
      by_cases hE : hasErrorField doc <;> simp [hp, hE]

/-- Helper: full description of ModifyResponse on the path where
buffering the body fails: the error is returned, restoration is
skipped, nothing is logged, and the deferred classification still runs
with the transport status. -/
theorem modifyResponse_readErr (o : Oracles) (c : NodeCounters)
    (r : HttpResponse) (h : r.bodyRead = Except.error ()) :
    modifyResponse o c r =
      { counters := classifyStatus { c with calls := c.calls + 1 } r.statusCode
        returnedError := true
        deliveredStatus := r.statusCode
        deliveredBody := none
        contentLength := none
        logs := [] } := by
  simp only [modifyResponse, h]

/-- Helper: whatever path ModifyResponse takes, the resulting counters
are the bumped total classified with some status. -/
theorem modifyResponse_counters_shape (o : Oracles) (c : NodeCounters)
    (r : HttpResponse) :
    ∃ s, (modifyResponse o c r).counters =
      classifyStatus { c with calls := c.calls + 1 } s := by
  cases h : r.bodyRead with
  | error e =>
    cases e
    exact ⟨r.statusCode, by rw [modifyResponse_readErr o c r h]⟩
  | ok b =>
    exact ⟨finalInspectionStatus o r b, by rw [modifyResponse_ok o c r b h]⟩

/-- C6: for every response whose decoded body contains no field named
error, or where decompression or JSON parsing fails, the status code
delivered to the client equals the original upstream status and the
delivered body bytes are the raw bytes received, with Content-Length
set to their count, and the hook reports no error. -/
theorem c6_no_error_forwarded_unmodified (o : Oracles) (c : NodeCounters)
    (r : HttpResponse) (b : Bytes) (h : r.bodyRead = Except.ok b)
    (hno : inspectionFindsError o r b = false) :
    (modifyResponse o c r).deliveredStatus = r.statusCode
  ∧ (modifyResponse o c r).deliveredBody = some b
  ∧ (modifyResponse o c r).contentLength = some b.length
  ∧ (modifyResponse o c r).returnedError = false := by
  rw [modifyResponse_ok o c r b h]
  exact ⟨rfl, rfl, rfl, rfl⟩

/-- Witness for C6 at a concrete uncompressed 200 response whose body
parses to a document with no error field. -/
theorem c6_no_error_forwarded_unmodified_witness :
    (plainResp 200 [4, 2]).bodyRead = Except.ok [4, 2]
  ∧ inspectionFindsError (plainOracles (some sampleOkDoc)) (plainResp 200 [4, 2]) [4, 2] = false
  ∧ ((modifyResponse (plainOracles (some sampleOkDoc)) NodeCounters.zero (plainResp 200 [4, 2])).deliveredStatus = 200
  ∧ (modifyResponse (plainOracles (some sampleOkDoc)) NodeCounters.zero (plainResp 200 [4, 2])).deliveredBody = some [4, 2]
  ∧ (modifyResponse (plainOracles (some sampleOkDoc)) NodeCounters.zero (plainResp 200 [4, 2])).contentLength = some 2
  ∧ (modifyResponse (plainOracles (some sampleOkDoc)) NodeCounters.zero (plainResp 200 [4, 2])).returnedError = false) :=
  have hno : inspectionFindsError (plainOracles (some sampleOkDoc)) (plainResp 200 [4, 2]) [4, 2] = false := by
    simp [inspectionFindsError, tryDecompressResponse, plainOracles, plainResp, hasErrorField, sampleOkDoc]
  ⟨rfl, hno,
    c6_no_error_forwarded_unmodified (plainOracles (some sampleOkDoc))
      NodeCounters.zero (plainResp 200 [4, 2]) [4, 2] rfl hno⟩

/-- C10: when buffering the upstream body fails mid-read, the hook
returns that error, restoration and inspection are skipped (no body is
put back, nothing is logged), yet the total counter was already
incremented and the deferred classification still bumps the class
counter of the original upstream status. -/
theorem c10_read_failure_still_counts (o : Oracles) (c : NodeCounters)
    (r : HttpResponse) (h : r.bodyRead = Except.error ()) :
    (modifyResponse o c r).returnedError = true
  ∧ (modifyResponse o c r).deliveredBody = none
  ∧ (modifyResponse o c r).logs = []
  ∧ (modifyResponse o c r).counters =
      classifyStatus { c with calls := c.calls + 1 } r.statusCode
  ∧ (modifyResponse o c r).counters.calls = c.calls + 1 := by
  rw [modifyResponse_readErr o c r h]
  refine ⟨rfl, rfl, rfl, rfl, ?_⟩
  exact classifyStatus_calls { c with calls := c.calls + 1 } r.statusCode

/-- Witness for C10 at a concrete 200 response whose body read fails:
the error is surfaced while total and the 2xx counter are bumped. -/
theorem c10_read_failure_still_counts_witness :
    readErrResp.bodyRead = Except.error ()
  ∧ ((modifyResponse (plainOracles none) NodeCounters.zero readErrResp).returnedError = true
  ∧ (modifyResponse (plainOracles none) NodeCounters.zero readErrResp).deliveredBody = none
  ∧ (modifyResponse (plainOracles none) NodeCounters.zero readErrResp).logs = []
  ∧ (modifyResponse (plainOracles none) NodeCounters.zero readErrResp).counters =
      classifyStatus ⟨1, 0, 0, 0⟩ 200
  ∧ (modifyResponse (plainOracles none) NodeCounters.zero readErrResp).counters.calls = 1) :=
  ⟨rfl, c10_read_failure_still_counts (plainOracles none) NodeCounters.zero readErrResp rfl⟩

/-- C2 counterexample: a deflate-encoded response whose decode fails is
handled silently, contradicting the claim that the failure is logged
and surfaced as a hard error and that the classification step is
skipped: nothing is logged, no error is returned, and the counters are
still classified (the 2xx counter is bumped for this 200 response). -/
theorem c2_counterexample :
    (modifyResponse deflateFailOracles NodeCounters.zero (deflateResp [9])).returnedError = false
  ∧ (modifyResponse deflateFailOracles NodeCounters.zero (deflateResp [9])).logs = []
  ∧ (modifyResponse deflateFailOracles NodeCounters.zero (deflateResp [9])).counters = ⟨1, 1, 0, 0⟩ := by
  refine ⟨?_, ?_, ?_⟩ <;> decide

/-- C2 amended: for every response carrying Content-Encoding deflate
whose body fails to decode, the JSON inspection and the override are
skipped silently: no error is returned, nothing is logged, the process
does not crash, the original bytes are restored and the original
status delivered, and the counter classification still runs with the
original upstream status. -/
theorem c2_deflate_failure_silent (o : Oracles) (c : NodeCounters)
    (r : HttpResponse) (b : Bytes) (h : r.bodyRead = Except.ok b)
    (henc : r.contentEncoding = "deflate")
    (hfl : o.flate b = FlateOutcome.readErr) :
    modifyResponse o c r =
      { counters := classifyStatus { c with calls := c.calls + 1 } r.statusCode
        returnedError := false
        deliveredStatus := r.statusCode
        deliveredBody := some b
        contentLength := some b.length
        logs := [] } := by
  have hdec : tryDecompressResponse r.contentEncoding (o.gzip b) (o.flate b) b
      = Except.error () := by
    rw [henc, hfl]
    rfl
  rw [modifyResponse_ok o c r b h]
  simp [finalInspectionStatus, inspectionFindsError, modifyLogs, hdec]

/-- Witness for C2 at a concrete deflate response whose decode fails. -/
theorem c2_deflate_failure_silent_witness :
    (deflateResp [9]).bodyRead = Except.ok [9]
  ∧ (deflateResp [9]).contentEncoding = "deflate"
  ∧ deflateFailOracles.flate [9] = FlateOutcome.readErr
  ∧ modifyResponse deflateFailOracles NodeCounters.zero (deflateResp [9]) =
      { counters := classifyStatus ⟨1, 0, 0, 0⟩ 200
        returnedError := false
        deliveredStatus := 200
        deliveredBody := some [9]
        contentLength := some 1
        logs := [] } :=
  ⟨rfl, rfl, rfl,
    c2_deflate_failure_silent deflateFailOracles NodeCounters.zero
      (deflateResp [9]) [9] rfl rfl rfl⟩

/-- C4: counter classification uses the status after any 429 override,
not the original upstream status: the total is always incremented by
exactly one, an override bumps exactly the 4xx counter whatever the
transport status was, and in general exactly one class counter is
bumped when the classified status falls in its range and none
otherwise. -/
theorem c4_classification_uses_final_status (o : Oracles)
    (c : NodeCounters) (r : HttpResponse) (b : Bytes)
    (h : r.bodyRead = Except.ok b) :
    (modifyResponse o c r).counters =
      classifyStatus { c with calls := c.calls + 1 } (finalInspectionStatus o r b)
  ∧ (modifyResponse o c r).counters.calls = c.calls + 1
  ∧ (inspectionFindsError o r b = true →
        (modifyResponse o c r).counters.calls4XX = c.calls4XX + 1
      ∧ (modifyResponse o c r).counters.calls2XX = c.calls2XX
      ∧ (modifyResponse o c r).counters.calls5XX = c.calls5XX)
  ∧ (∀ (c' : NodeCounters) (s : Nat),
        (200 ≤ s ∧ s < 300 →
          classifyStatus c' s = { c' with calls2XX := c'.calls2XX + 1 })
      ∧ (400 ≤ s ∧ s < 500 →
          classifyStatus c' s = { c' with calls4XX := c'.calls4XX + 1 })
      ∧ (500 ≤ s ∧ s < 600 →
          classifyStatus c' s = { c' with calls5XX := c'.calls5XX + 1 })
      ∧ (¬ (200 ≤ s ∧ s < 300) → ¬ (400 ≤ s ∧ s < 500) →
          ¬ (500 ≤ s ∧ s < 600) → classifyStatus c' s = c')) := by
  have hcnt : (modifyResponse o c r).counters =
      classifyStatus { c with calls := c.calls + 1 } (finalInspectionStatus o r b) := by
    rw [modifyResponse_ok o c r b h]
  refine ⟨hcnt, ?_, ?_, ?_⟩
  · rw [hcnt, classifyStatus_calls]
  · intro hE
    have hfin : finalInspectionStatus o r b = 429 := by
      unfold finalInspectionStatus
      rw [hE]
      rfl
    rw [hcnt, hfin,
      classifyStatus_of_4xx { c with calls := c.calls + 1 } 429 (by omega)]
    exact ⟨rfl, rfl, rfl⟩
  · intro c' s
    exact ⟨classifyStatus_of_2xx c' s, classifyStatus_of_4xx c' s,
      classifyStatus_of_5xx c' s, classifyStatus_of_none c' s⟩

/-- Witness for C4 at a concrete 200 response whose body holds an
error field: total and the 4xx counter are bumped, 2xx and 5xx are
untouched. -/
theorem c4_classification_uses_final_status_witness :
    (plainResp 200 [7]).bodyRead = Except.ok [7]
  ∧ inspectionFindsError (plainOracles (some sampleErrorDoc)) (plainResp 200 [7]) [7] = true
  ∧ ((modifyResponse (plainOracles (some sampleErrorDoc)) NodeCounters.zero (plainResp 200 [7])).counters.calls4XX = 1
  ∧ (modifyResponse (plainOracles (some sampleErrorDoc)) NodeCounters.zero (plainResp 200 [7])).counters.calls2XX = 0
  ∧ (modifyResponse (plainOracles (some sampleErrorDoc)) NodeCounters.zero (plainResp 200 [7])).counters.calls5XX = 0)
  ∧ (modifyResponse (plainOracles (some sampleErrorDoc)) NodeCounters.zero (plainResp 200 [7])).counters.calls = 1 :=
  have hE : inspectionFindsError (plainOracles (some sampleErrorDoc)) (plainResp 200 [7]) [7] = true := by
    simp [inspectionFindsError, tryDecompressResponse, plainOracles, plainResp, hasErrorField, sampleErrorDoc]
  ⟨rfl, hE,
    (c4_classification_uses_final_status (plainOracles (some sampleErrorDoc))
      NodeCounters.zero (plainResp 200 [7]) [7] rfl).2.2.1 hE,
    (c4_classification_uses_final_status (plainOracles (some sampleErrorDoc))
      NodeCounters.zero (plainResp 200 [7]) [7] rfl).2.1⟩

/-- C1: at a concrete 200 response whose body holds an error field,
the inspection detects the error and logs the WARN line, and the 4xx
counter is classified as if the status were 429, but the status code
the client receives is still the original 200, not 429: the assignment
to the local statusCode variable never reaches the response object, so
the override only affects counter classification. -/
theorem c1_override_not_delivered_to_client :
    inspectionFindsError (plainOracles (some sampleErrorDoc)) (plainResp 200 [1, 2]) [1, 2] = true
  ∧ (modifyResponse (plainOracles (some sampleErrorDoc)) NodeCounters.zero (plainResp 200 [1, 2])).logs = [LogEvent.warnDetectError]
  ∧ (modifyResponse (plainOracles (some sampleErrorDoc)) NodeCounters.zero (plainResp 200 [1, 2])).counters = ⟨1, 0, 1, 0⟩
  ∧ (modifyResponse (plainOracles (some sampleErrorDoc)) NodeCounters.zero (plainResp 200 [1, 2])).deliveredBody = some [1, 2]
  ∧ (modifyResponse (plainOracles (some sampleErrorDoc)) NodeCounters.zero (plainResp 200 [1, 2])).deliveredStatus = 200
  ∧ (modifyResponse (plainOracles (some sampleErrorDoc)) NodeCounters.zero (plainResp 200 [1, 2])).deliveredStatus ≠ 429 := by
  have hE : inspectionFindsError (plainOracles (some sampleErrorDoc)) (plainResp 200 [1, 2]) [1, 2] = true := by
    simp [inspectionFindsError, tryDecompressResponse, plainOracles, plainResp, hasErrorField, sampleErrorDoc]
  have hmod := modifyResponse_ok (plainOracles (some sampleErrorDoc))
    NodeCounters.zero (plainResp 200 [1, 2]) [1, 2] rfl
  refine ⟨hE, ?_, ?_, ?_, ?_, ?_⟩ <;> rw [hmod] <;>
    simp [modifyLogs, finalInspectionStatus, inspectionFindsError, hE,
      tryDecompressResponse, plainOracles, plainResp, hasErrorField,
      sampleErrorDoc, classifyStatus, NodeCounters.zero]

/-- C8 counterexample: a gzip response whose decoder is constructed
from a valid header but whose compressed data then fails to read is a
hard inspection error, contradicting the claim that gzip decoding
failure is never a hard error and that inspection proceeds on the raw
bytes: the decompression step returns an error, so the parser (which
would have found an error field in the raw bytes) is never consulted,
nothing is logged, and the response is classified by its original 200
status. -/
theorem c8_counterexample :
    tryDecompressResponse "gzip" GzipOutcome.readErr (FlateOutcome.decoded []) [31, 139] = Except.error ()
  ∧ (modifyResponse gzipDataFailOracles NodeCounters.zero (gzipResp [31, 139])).logs = []
  ∧ (modifyResponse gzipDataFailOracles NodeCounters.zero (gzipResp [31, 139])).counters = ⟨1, 1, 0, 0⟩
  ∧ (modifyResponse gzipDataFailOracles NodeCounters.zero (gzipResp [31, 139])).returnedError = false := by
  refine ⟨rfl, ?_, ?_, ?_⟩ <;> decide

/-- C8 amended: when the gzip decoder cannot be constructed (malformed
header), decoding is a no-op and inspection proceeds using the raw
un-decoded bytes with no error; but a read failure from a successfully
constructed gzip reader is a hard inspection error, handled like the
deflate case. -/
theorem c8_gzip_header_failure_fallback (o : Oracles) (c : NodeCounters)
    (r : HttpResponse) (b : Bytes) (h : r.bodyRead = Except.ok b)
    (henc : r.contentEncoding = "gzip")
    (hgz : o.gzip b = GzipOutcome.newReaderErr) :
    tryDecompressResponse r.contentEncoding (o.gzip b) (o.flate b) b = Except.ok b
  ∧ inspectionFindsError o r b =
      (match o.parse b with
       | none => false
       | some doc => hasErrorField doc)
  ∧ (modifyResponse o c r).returnedError = false
  ∧ (modifyResponse o c r).deliveredBody = some b
  ∧ (∀ (fl : FlateOutcome) (b2 : Bytes),
      tryDecompressResponse "gzip" GzipOutcome.readErr fl b2 = Except.error ()) := by
  have hdec : tryDecompressResponse r.contentEncoding (o.gzip b) (o.flate b) b
      = Except.ok b := by
    rw [henc, hgz]
    rfl
  refine ⟨hdec, ?_, ?_, ?_, ?_⟩
  · unfold inspectionFindsError
    rw [hdec]
  · rw [modifyResponse_ok o c r b h]
  · rw [modifyResponse_ok o c r b h]
  · intro fl b2
    rfl

/-- Witness for C8 at a concrete gzip response with a malformed
header: the raw bytes are used for inspection and no error surfaces. -/
theorem c8_gzip_header_failure_fallback_witness :
    (gzipResp [3]).bodyRead = Except.ok [3]
  ∧ (gzipResp [3]).contentEncoding = "gzip"
  ∧ (Oracles.mk (fun _ => GzipOutcome.newReaderErr) (fun _ => FlateOutcome.decoded []) (fun _ => none)).gzip [3] = GzipOutcome.newReaderErr
  ∧ tryDecompressResponse (gzipResp [3]).contentEncoding GzipOutcome.newReaderErr (FlateOutcome.decoded []) [3] = Except.ok [3]
  ∧ (modifyResponse (Oracles.mk (fun _ => GzipOutcome.newReaderErr) (fun _ => FlateOutcome.decoded []) (fun _ => none)) NodeCounters.zero (gzipResp [3])).returnedError = false
  ∧ (modifyResponse (Oracles.mk (fun _ => GzipOutcome.newReaderErr) (fun _ => FlateOutcome.decoded []) (fun _ => none)) NodeCounters.zero (gzipResp [3])).deliveredBody = some [3] :=
  have happ := c8_gzip_header_failure_fallback
    (Oracles.mk (fun _ => GzipOutcome.newReaderErr) (fun _ => FlateOutcome.decoded []) (fun _ => none))
    NodeCounters.zero (gzipResp [3]) [3] rfl rfl rfl
  ⟨rfl, rfl, rfl, happ.1, happ.2.2.1, happ.2.2.2.1⟩

/-- C7: in every reachable counter state the total is at least the sum
of the three class counters; moreover every response increments the
total by exactly one and never decreases a class counter, and a
classified status outside the 2xx, 4xx and 5xx ranges leaves all class
counters untouched. -/
theorem c7_counter_invariant :
    (∀ c : NodeCounters, ReachableCounters c →
      c.calls2XX + c.calls4XX + c.calls5XX ≤ c.calls)
  ∧ (∀ (o : Oracles) (c : NodeCounters) (r : HttpResponse),
        (modifyResponse o c r).counters.calls = c.calls + 1
      ∧ c.calls2XX ≤ (modifyResponse o c r).counters.calls2XX
      ∧ c.calls4XX ≤ (modifyResponse o c r).counters.calls4XX
      ∧ c.calls5XX ≤ (modifyResponse o c r).counters.calls5XX)
  ∧ (∀ (c : NodeCounters) (s : Nat),
      ¬ (200 ≤ s ∧ s < 300) → ¬ (400 ≤ s ∧ s < 500) →
      ¬ (500 ≤ s ∧ s < 600) → classifyStatus c s = c) := by
  refine ⟨?_, ?_, classifyStatus_of_none⟩
  · intro c h
    induction h with
    | init => simp [NodeCounters.zero]
    | step o r hc ih =>
      rename_i cprev
      obtain ⟨s, hs⟩ := modifyResponse_counters_shape o cprev r
      rw [hs]
      have h1 := classifyStatus_sum_le { cprev with calls := cprev.calls + 1 } s
      have h2 := classifyStatus_calls { cprev with calls := cprev.calls + 1 } s
      simp at h1 h2
      omega
  · intro o c r
    obtain ⟨s, hs⟩ := modifyResponse_counters_shape o c r
    rw [hs]
    have h1 := classifyStatus_calls { c with calls := c.calls + 1 } s
    have h2 := classifyStatus_mono { c with calls := c.calls + 1 } s
    simp at h1 h2
    exact ⟨h1, h2.1, h2.2.1, h2.2.2⟩

/-- Witness for C7 at the reachable state after one 200 response: the
invariant holds with total 1 and class sum 1. -/
theorem c7_counter_invariant_witness :
    ReachableCounters (modifyResponse (plainOracles none) NodeCounters.zero (plainResp 200 [4])).counters
  ∧ (modifyResponse (plainOracles none) NodeCounters.zero (plainResp 200 [4])).counters.calls2XX
    + (modifyResponse (plainOracles none) NodeCounters.zero (plainResp 200 [4])).counters.calls4XX
    + (modifyResponse (plainOracles none) NodeCounters.zero (plainResp 200 [4])).counters.calls5XX
    ≤ (modifyResponse (plainOracles none) NodeCounters.zero (plainResp 200 [4])).counters.calls :=
  have hreach : ReachableCounters (modifyResponse (plainOracles none) NodeCounters.zero (plainResp 200 [4])).counters :=
    ReachableCounters.step (plainOracles none) (plainResp 200 [4]) ReachableCounters.init
  ⟨hreach, c7_counter_invariant.1 _ hreach⟩

/-- Helper: as long as the 64-bit cursor does not wrap, the indices of
successive selections follow the pre-increment round-robin formula. -/
theorem selectIndices_formula (N K : Nat) : ∀ c0 : Nat,
    c0 + K < UINT64_MOD →
    selectIndices N c0 K = (List.range K).map fun i => (c0 + (i + 1)) % N := by
  induction K with
  | zero =>
    intro c0 h
    simp [selectIndices]
  | succ k ih =>
    intro c0 h
    have h2 : (c0 + 1) % UINT64_MOD = c0 + 1 := Nat.mod_eq_of_lt (by omega)
    rw [List.range_succ_eq_map]
    simp only [selectIndices, nextNodeIndex, h2, List.map_cons, List.map_map]
    rw [ih (c0 + 1) (by omega)]
    congr 1
    norm_num
    intro a _
    congr 1
    omega

/-- C3 counterexample: with a single configured upstream and a fresh
registry (cursor zero), the very first selection returns index 0,
contradicting the claim that index 0 is never the very first selection
result. -/
theorem c3_counterexample :
    (selectIndices 1 0 1).head? = some 0 ∧ selectIndices 1 0 1 = [0] := by
  refine ⟨?_, ?_⟩ <;> decide

/-- C3 amended: provided the 64-bit cursor does not wrap during the K
calls, the indices returned by K successive selections from a
quiescent registry with cursor value c0 are ((c0 + i) mod N) for
i = 1..K; the very first selection from a fresh registry returns index
1 mod N, so index 0 is never the very first selection result only when
N is at least 2 (for N = 1 the first selection returns index 0). -/
theorem c3_round_robin_sequence (N c0 K : Nat) (hN : 0 < N)
    (hov : c0 + K < UINT64_MOD) :
    selectIndices N c0 K = (List.range K).map (fun i => (c0 + (i + 1)) % N)
  ∧ (∀ k : Nat, 2 ≤ N → (selectIndices N 0 (k + 1)).head? = some 1) := by
  refine ⟨selectIndices_formula N K c0 hov, ?_⟩
  intro k hN2
  have h1 : (0 + 1) % UINT64_MOD = 1 := Nat.mod_eq_of_lt (by norm_num [UINT64_MOD])
  simp only [selectIndices, nextNodeIndex, h1, List.head?]
  exact congrArg some (Nat.mod_eq_of_lt hN2)

/-- Witness for C3 at three nodes, fresh cursor, four calls: the
returned indices are 1, 2, 0, 1. -/
theorem c3_round_robin_sequence_witness :
    (0 : Nat) < 3
  ∧ 0 + 4 < UINT64_MOD
  ∧ selectIndices 3 0 4 = (List.range 4).map (fun i => (0 + (i + 1)) % 3)
  ∧ selectIndices 3 0 4 = [1, 2, 0, 1]
  ∧ (selectIndices 3 0 2).head? = some 1 :=
  ⟨by norm_num, by norm_num [UINT64_MOD],
    (c3_round_robin_sequence 3 0 4 (by norm_num) (by norm_num [UINT64_MOD])).1,
    by decide,
    (c3_round_robin_sequence 3 0 4 (by norm_num) (by norm_num [UINT64_MOD])).2 1 (by norm_num)⟩

/-- C5: in health-probe mode each upstream outcome maps
deterministically to the caller-visible status: result false gives
200, result true gives 500, transport failure gives 503, a body read
failure or JSON decode failure gives 500, and a missing or non-boolean
result gives 502 with the raw upstream body echoed verbatim and an
INFO-level log line. -/
theorem c5_health_probe_mapping :
    healthzHandler HealthUpstream.transportErr =
      { status := 503, echoedBody := none, infoLogged := false }
  ∧ healthzHandler HealthUpstream.readErr =
      { status := 500, echoedBody := none, infoLogged := false }
  ∧ (∀ raw : Bytes, healthzHandler (HealthUpstream.body raw none) =
      { status := 500, echoedBody := none, infoLogged := false })
  ∧ (∀ (raw : Bytes) (fields : List (String × Json)),
      fields.lookup "result" = some (Json.bool false) →
      healthzHandler (HealthUpstream.body raw (some fields)) =
        { status := 200, echoedBody := none, infoLogged := false })
  ∧ (∀ (raw : Bytes) (fields : List (String × Json)),
      fields.lookup "result" = some (Json.bool true) →
      healthzHandler (HealthUpstream.body raw (some fields)) =
        { status := 500, echoedBody := none, infoLogged := false })
  ∧ (∀ (raw : Bytes) (fields : List (String × Json)),
      fields.lookup "result" = none →
      healthzHandler (HealthUpstream.body raw (some fields)) =
        { status := 502, echoedBody := some raw, infoLogged := true })
  ∧ (∀ (raw : Bytes) (fields : List (String × Json)) (j : Json),
      fields.lookup "result" = some j → (∀ v : Bool, j ≠ Json.bool v) →
      healthzHandler (HealthUpstream.body raw (some fields)) =
        { status := 502, echoedBody := some raw, infoLogged := true }) := by
  refine ⟨rfl, rfl, fun raw => rfl, ?_, ?_, ?_, ?_⟩
  · intro raw fields h
    simp only [healthzHandler, h]
  · intro raw fields h
    simp only [healthzHandler, h]
  · intro raw fields h
    simp only [healthzHandler, h]
  · intro raw fields j h hnb
    simp only [healthzHandler, h]
    cases j with
    | null => rfl
    | bool v => exact absurd rfl (hnb v)
    | num s => rfl
    | str s => rfl
    | arr items => rfl
    | obj fs => rfl

/-- Witness for C5 at the concrete scenarios of the spec: a synced
upstream gives 200, a syncing upstream gives 500, and an eth_syncing
progress object gives 502 with the body echoed. -/
theorem c5_health_probe_mapping_witness :
    ([("result", Json.bool false)].lookup "result" = some (Json.bool false))
  ∧ healthzHandler (HealthUpstream.body [1] (some [("result", Json.bool false)])) =
      { status := 200, echoedBody := none, infoLogged := false }
  ∧ ([("result", Json.bool true)].lookup "result" = some (Json.bool true))
  ∧ healthzHandler (HealthUpstream.body [1] (some [("result", Json.bool true)])) =
      { status := 500, echoedBody := none, infoLogged := false }
  ∧ ([("result", Json.obj [("startingBlock", Json.str "0x0")])].lookup "result"
      = some (Json.obj [("startingBlock", Json.str "0x0")]))
  ∧ healthzHandler (HealthUpstream.body [2] (some [("result", Json.obj [("startingBlock", Json.str "0x0")])])) =
      { status := 502, echoedBody := some [2], infoLogged := true } :=
  ⟨rfl,
    c5_health_probe_mapping.2.2.2.1 [1] [("result", Json.bool false)] rfl,
    rfl,
    c5_health_probe_mapping.2.2.2.2.1 [1] [("result", Json.bool true)] rfl,
    rfl,
    c5_health_probe_mapping.2.2.2.2.2.2 [2]
      [("result", Json.obj [("startingBlock", Json.str "0x0")])]
      (Json.obj [("startingBlock", Json.str "0x0")]) rfl
      (fun v h => Json.noConfusion h)⟩

/-- C9: with a metrics print interval of zero the periodic task
returns before creating the ticker, so no periodic metrics log line is
ever produced, whatever ticks would have fired and whatever nodes are
registered. -/
theorem c9_zero_interval_no_metrics :
    ∀ (ticksBeforeCancel : Nat) (nodes : List NodeCounters),
      runPrintNodeMetrics 0 ticksBeforeCancel nodes = [] := by
  intro t nodes
  rfl

end NodeReverseProxy
